import Mathlib

/-!
Verification of the AlphaRequest ticket-workflow engine.

The Python modules under `alpharequestmanager/` are shallowly embedded:
pure functions become Lean functions, database reads/writes become explicit
state passing on a `DB` record, and functions that `raise` return `Except`.
The persistence driver itself (MySQL access in `database/database.py`) is out
of the verified core's scope and is modelled as a store that persists the
fields it is handed.  Python `dict`s are modelled as insertion-ordered
association lists, matching CPython's documented dict semantics.
-/

namespace AlphaRequest

/-! ## Association-list operations (Python dict semantics) -/

/-- First binding of `k` in the association list (Python `d.get(k)` /
`d[k]`; keys are unique in an actual dict, so first = only). -/
def alook {α : Type} : List (String × α) → String → Option α
  | [], _ => none
  | (k, v) :: rest, key => if k = key then some v else alook rest key

/-- Python `k in d`. -/
def hasKey {α : Type} (m : List (String × α)) (k : String) : Bool :=
  (alook m k).isSome

/-- Python `d[k] = v`: replace in place if the key exists (keeping its
position), otherwise append a new binding. -/
def dictSet {α : Type} (m : List (String × α)) (k : String) (v : α) :
    List (String × α) :=
  if hasKey m k then
    m.map (fun p => if p.1 = k then (k, v) else p)
  else
    m ++ [(k, v)]

/-! ## Department status constants (`services/workflow_state.py`) -/

def DEPARTMENT_STATUS_OPEN : String := "open"
def DEPARTMENT_STATUS_IN_PROGRESS : String := "in_progress"
def DEPARTMENT_STATUS_DONE : String := "done"
def DEPARTMENT_STATUS_SKIPPED : String := "skipped"
def DEPARTMENT_STATUS_REJECTED : String := "rejected"

def ALLOWED_DEPARTMENT_STATUS : List String :=
  [DEPARTMENT_STATUS_OPEN, DEPARTMENT_STATUS_IN_PROGRESS,
   DEPARTMENT_STATUS_DONE, DEPARTMENT_STATUS_SKIPPED,
   DEPARTMENT_STATUS_REJECTED]

/-! ## Workflow document -/

/-- One entry of the `workflow["departments"]` map:
`{"name": ..., "required": ..., "status": ...}`. -/
structure DeptEntry where
  name : String
  required : Bool
  status : String
deriving DecidableEq, Repr

/-- The `departments` map of a ticket's `workflow_state` document, keyed by
group id, in insertion order. -/
abbrev DeptMap := List (String × DeptEntry)

/-- Errors raised by the workflow engine (`ValueError` messages in
`workflow_state.py`). -/
inductive WfError where
  | invalidStatus
  | workflowNotInitialized
  | unknownDepartment
deriving DecidableEq, Repr

/-- The `"status"` write `workflow["departments"][group_id]["status"] = status`. -/
def setEntryStatus (m : DeptMap) (gid s : String) : DeptMap :=
  m.map (fun p => if p.1 = gid then (p.1, { p.2 with status := s }) else p)

/-- Core of `set_department_status` as a transformer of the ticket's
workflow document (`none` = the document has no `"departments"` key, which is
what `_require_workflow` rejects).  The returned map is what
`set_workflow_state` is called with. -/
def set_department_status_doc (wf : Option DeptMap) (gid s : String) :
    Except WfError DeptMap :=
  if s ∉ ALLOWED_DEPARTMENT_STATUS then .error .invalidStatus
  else
    match wf with
    | none => .error .workflowNotInitialized
    | some m =>
      if hasKey m gid then .ok (setEntryStatus m gid s)
      else .error .unknownDepartment

/-- Loop body of `can_archive_ticket`: false iff some entry has
`dept.get("required")` truthy and `dept.get("status") != "done"`. -/
def can_archive_doc (m : DeptMap) : Bool :=
  m.all (fun p => !p.2.required || decide (p.2.status = DEPARTMENT_STATUS_DONE))

/-- `can_archive_ticket`, as a function of the ticket's workflow document
(`_require_workflow` then the loop over `workflow["departments"].values()`). -/
def can_archive_ticket_doc (wf : Option DeptMap) : Except WfError Bool :=
  match wf with
  | none => .error .workflowNotInitialized
  | some m => .ok (can_archive_doc m)

/-- Status reset applied to one entry by
`reset_departments_on_description_change`. -/
def revertEntry (e : DeptEntry) : DeptEntry :=
  if e.status = DEPARTMENT_STATUS_DONE then
    { e with status := DEPARTMENT_STATUS_OPEN }
  else e

/-- `reset_departments_on_description_change` as a transformer of the
workflow document: `none` out means no `set_workflow_state` call was made
(either no `"departments"` key, or the `changed` flag stayed false). -/
def reset_departments_doc (wf : Option DeptMap) : Option DeptMap :=
  match wf with
  | none => none
  | some m =>
    if m.any (fun p => decide (p.2.status = DEPARTMENT_STATUS_DONE)) then
      some (m.map (fun p => (p.1, revertEntry p.2)))
    else none

/-- Status values accepted by the department action API
(`set_department_status_api` checks `status not in {"done", "rejected",
"skipped"}`). -/
def EXTERNAL_STATUSES : List String :=
  [DEPARTMENT_STATUS_DONE, DEPARTMENT_STATUS_REJECTED,
   DEPARTMENT_STATUS_SKIPPED]

/-! ## JSON values (descriptions parsed by the `json` library) -/

/-- Structured form of a parsed JSON description, as far as the workflow
builders inspect it. -/
inductive JValue where
  | null
  | str (s : String)
  | obj (fields : List (String × JValue))

/-- Python `v.get(k, {})` followed by further `.get`s: field lookup that
yields a neutral value on a missing key or a non-object receiver. -/
def jget (v : JValue) (k : String) : JValue :=
  match v with
  | .obj fs => (alook fs k).getD .null
  | _ => .null

/-- Python `v == s` for a string literal `s`. -/
def jIsStr (v : JValue) (s : String) : Bool :=
  match v with
  | .str t => t == s
  | _ => false

/-! ## History events (`services/ticket_history.py`) -/

/-- One entry of a ticket's serialized `history` list. -/
structure Event where
  timestamp : String
  actor_id : Option String
  actor_name : String
  actor_type : String
  action : String
  details : List (String × String)
deriving DecidableEq, Repr

/-! ## Permission settings (`services/ticket_permissions.py`) -/

/-- A JSON value stored under one ticket-type key of the
`TICKET_PERMISSIONS` settings document: either a list of user ids or some
non-list value (rejected by the `isinstance(..., list)` guards). -/
inductive PermVal where
  | plist (users : List String)
  | nonList
deriving DecidableEq, Repr

/-- The raw `TICKET_PERMISSIONS` settings dict. -/
abbrev PermsRaw := List (String × PermVal)

/-- Errors named by the spec for `setPermissions`; the implementation never
actually raises them (see the `set_ticket_permissions_safe` theorems). -/
inductive PermError where
  | invalidTicketType
  | invalidPayload
deriving DecidableEq, Repr

/-- The `TicketType` enum values, in declaration order
(`models/models.py`). -/
def ticketTypeValues : List String :=
  ["hardware", "niederlassung-anmelden", "niederlassung-schliessen",
   "niederlassung-umzug", "zugang-beantragen", "zugang-sperren"]

/-- `get_allowed_ticket_types`: the set of all `TicketType` values
(membership is all the callers use). -/
def get_allowed_ticket_types : List String := ticketTypeValues

/-! ## Ticket rows and the database state -/

/-- The columns of a ticket row that the verified operations read or write
(role-assignment bookkeeping is untouched by the claims and not modelled).
`workflow_state` is the parsed `"departments"` map of the serialized
sub-document, `none` when the column is NULL or the document lacks the
key. -/
structure TicketR where
  id : Nat
  ticket_type : String
  owner_id : String
  status : String
  priority : String
  workflow_state : Option DeptMap
  history : List Event
deriving DecidableEq

/-- The persistent and environment state threaded through the stateful
operations. -/
structure DB where
  tickets : List TicketR
  /-- Autoincrement counter for `insert_ticket`. -/
  nextId : Nat
  /-- Settings row `TICKET_PERMISSIONS` (`none` = key absent). -/
  permStore : Option PermsRaw
  /-- Modelled from the spec: `get_users_from_group` — the department
  member list, "maintained externally"; referenced by the services but
  defined outside the provided sources. -/
  groupMembers : String → List String
  /-- Modelled from the spec: `get_group_name_from_id` — display-name
  lookup in the externally maintained group registry. -/
  groupName : String → String
  /-- Ids present in `app.state.user_cache`. -/
  userCache : List String
  /-- The external `json` library: `json.loads` on a description string
  (`none` = `json.loads` raises). -/
  parseJson : String → Option JValue

/-- `database.get_ticket`: the row with the given id, if any. -/
def getTicket (db : DB) (tid : Nat) : Option TicketR :=
  db.tickets.find? (fun t => t.id == tid)

/-- Row update: rewrite the fields of the ticket with the given id. -/
def updTicket (db : DB) (tid : Nat) (f : TicketR → TicketR) : DB :=
  { db with tickets := db.tickets.map (fun t => if t.id = tid then f t else t) }

/-- `get_workflow_state` composed with `"departments" in workflow`: the
department map of the ticket, if the ticket exists and is initialized. -/
def get_workflow_state (db : DB) (tid : Nat) : Option DeptMap :=
  (getTicket db tid).bind (fun t => t.workflow_state)

/-- `set_workflow_state`: persist the department map. -/
def set_workflow_state (db : DB) (tid : Nat) (m : DeptMap) : DB :=
  updTicket db tid (fun t => { t with workflow_state := some m })

/-- `get_department_status`:
`workflow.get("departments", {}).get(group_id, {}).get("status")`. -/
def get_department_status (db : DB) (tid : Nat) (gid : String) :
    Option String :=
  ((get_workflow_state db tid).bind (fun m => alook m gid)).map
    (fun e => e.status)

/-- `user_can_complete_department`: group membership, then current status
in `{open, in_progress}`. -/
def user_can_complete_department (db : DB) (tid : Nat) (uid gid : String) :
    Bool :=
  if ¬ (db.groupMembers gid).contains uid then false
  else
    match get_department_status db tid gid with
    | some s =>
      s == DEPARTMENT_STATUS_OPEN || s == DEPARTMENT_STATUS_IN_PROGRESS
    | none => false

/-- `set_department_status` at the ticket level: read the workflow, run the
document transformer, persist the result. -/
def set_department_status (db : DB) (tid : Nat) (gid s : String) :
    Except WfError DB :=
  match set_department_status_doc (get_workflow_state db tid) gid s with
  | .error e => .error e
  | .ok m' => .ok (set_workflow_state db tid m')

/-- `can_archive_ticket` at the ticket level. -/
def can_archive_ticket (db : DB) (tid : Nat) : Except WfError Bool :=
  can_archive_ticket_doc (get_workflow_state db tid)

/-- `reset_departments_on_description_change` at the ticket level: write
back only when the document transformer reports a change. -/
def reset_departments_on_description_change (db : DB) (tid : Nat) : DB :=
  match reset_departments_doc (get_workflow_state db tid) with
  | none => db
  | some m' => set_workflow_state db tid m'

/-- `add_history_event`: append one event to the ticket's serialized
history (no-op when the ticket does not exist). -/
def add_history_event (db : DB) (tid : Nat) (ev : Event) : DB :=
  match getTicket db tid with
  | none => db
  | some _ => updTicket db tid (fun t => { t with history := t.history ++ [ev] })

/-! ## Ticket permissions (`services/ticket_permissions.py`) -/

/-- `load_ticket_permissions`: clean the raw settings value into a dict
with exactly the allowed ticket types as keys, list values kept and
everything else replaced by `[]`. -/
def load_ticket_permissions (store : Option PermsRaw) :
    List (String × List String) :=
  ticketTypeValues.map (fun t =>
    (t, match alook (store.getD []) t with
        | some (.plist us) => us
        | _ => []))

/-- `can_user_create_ticket`: empty type or user id, or a type without an
entry, means nobody may; otherwise membership in the cleaned user list. -/
def can_user_create_ticket (store : Option PermsRaw) (tt uid : String) :
    Bool :=
  if tt = "" ∨ uid = "" then false
  else
    match alook (load_ticket_permissions store) tt with
    | some us => us.contains uid
    | none => false

/-- The cleaned permission entry for a ticket type (`[]` when the type is
unknown), used to phrase the creation-gate hypothesis. -/
def permEntry (store : Option PermsRaw) (tt : String) : List String :=
  (alook (load_ticket_permissions store) tt).getD []

/-- `init_ticket_permissions`: give every `TicketType` value an entry,
resetting non-list entries to `[]` and keeping existing lists. -/
def init_ticket_permissions (store : Option PermsRaw) : PermsRaw :=
  ticketTypeValues.foldl (fun raw t =>
    match alook raw t with
    | some (.plist _) => raw
    | _ => dictSet raw t (.plist [])) (store.getD [])

/-- `set_ticket_permissions_safe`: initialize, then fold the payload dict
over the store; entries with an unknown ticket type or a non-list value
are skipped (`continue`), never raised on, and known list entries replace
the type's user set.  Returns the stored settings value. -/
def set_ticket_permissions_safe (payload : PermsRaw)
    (store : Option PermsRaw) : Except PermError (Option PermsRaw) :=
  let perms := payload.foldl (fun perms pv =>
    if pv.1 ∉ get_allowed_ticket_types then perms
    else
      match pv.2 with
      | .plist us => dictSet perms pv.1 (.plist us)
      | .nonList => perms) (init_ticket_permissions store)
  .ok (some perms)

/-! ## HTTP-facing handlers (`api/tickets.py`) -/

/-- Errors surfaced by the ticket handlers (`HTTPException`s: 403
Forbidden, 400 invalid status, 400 validation, and propagated workflow
`ValueError`s). -/
inductive ApiError where
  | forbidden
  | invalidStatus
  | badRequest
  | workflow (e : WfError)
deriving DecidableEq, Repr

/-- `set_department_status_api`: membership/status guard, the 400 check on
the target status, the engine write, the `department_done` history event,
and the auto-archive step.  `now` stands for `datetime.utcnow()`. -/
def set_department_status_api (db : DB) (tid : Nat)
    (gid s uid uname now : String) : Except ApiError Unit × DB :=
  if ¬ user_can_complete_department db tid uid gid then (.error .forbidden, db)
  else if s ∉ EXTERNAL_STATUSES then (.error .invalidStatus, db)
  else
    match set_department_status db tid gid s with
    | .error e => (.error (.workflow e), db)
    | .ok db1 =>
      let db2 := add_history_event db1 tid
        { timestamp := now, actor_id := some uid, actor_name := uname,
          actor_type := "user", action := "department_done",
          details := [("department_id", gid),
                      ("department_name", db.groupName gid)] }
      match can_archive_ticket db2 tid with
      | .error e => (.error (.workflow e), db2)
      | .ok true =>
        let db3 := updTicket db2 tid (fun t => { t with status := "archived" })
        let db4 := add_history_event db3 tid
          { timestamp := now, actor_id := none, actor_name := "System",
            actor_type := "system", action := "ticket_archived", details := [] }
        (.ok (), db4)
      | .ok false => (.ok (), db2)

/-- `validate_assignee`: the sentinel `"fachabteilung"` or presence in the
user cache. -/
def validate_assignee (cache : List String) (aid : String) : Bool :=
  if aid = "" then false
  else if aid = "fachabteilung" then true
  else cache.contains aid

/-- Form fields of a `POST /tickets` request, together with the session
user. -/
structure CreateInput where
  ticket_type : String
  description : String
  assignee_id : String
  assignee_name : String
  supervisor_id : String
  supervisor_name : String
  accountable_id : String
  accountable_name : String
  priority : String
  user_id : String
  user_name : String

/-- The `create_ticket` handler: `require_ticket_permission` first, then
the assignee/supervisor checks, `validate_assignee`, the JSON validation of
the description, `TicketService.create_ticket` (row insertion), and the
`ticket_created` history event. -/
def create_ticket (db : DB) (inp : CreateInput) (now : String) :
    Except ApiError Nat × DB :=
  if ¬ can_user_create_ticket db.permStore inp.ticket_type inp.user_id then
    (.error .forbidden, db)
  else if inp.assignee_id = "" then (.error .badRequest, db)
  else if inp.supervisor_id = "" then (.error .badRequest, db)
  else if ¬ validate_assignee db.userCache inp.assignee_id then
    (.error .badRequest, db)
  else
    match db.parseJson inp.description with
    | none => (.error .badRequest, db)
    | some _ =>
      let tid := db.nextId
      let db1 := { db with
        tickets := db.tickets ++
          [{ id := tid, ticket_type := inp.ticket_type,
             owner_id := inp.user_id, status := "in_progress",
             priority := inp.priority, workflow_state := none,
             history := [] }],
        nextId := db.nextId + 1 }
      let db2 := add_history_event db1 tid
        { timestamp := now, actor_id := some inp.user_id,
          actor_name := inp.user_name, actor_type := "user",
          action := "ticket_created", details := [] }
      (.ok tid, db2)

/-! ## Ticket history read side (`services/ticket_history.py`) -/

/-- The ticket's stored history list (`ticket.history_parsed or []`). -/
def rawHistory (db : DB) (tid : Nat) : List Event :=
  match getTicket db tid with
  | none => []
  | some t => t.history

/-- The sort key of `get_ticket_history`: comparison of the (string)
`timestamp` fields, as Python `sorted(..., key=...)` compares them. -/
def histLE (a b : Event) : Prop := a.timestamp ≤ b.timestamp

instance : DecidableRel histLE :=
  fun a b => inferInstanceAs (Decidable (a.timestamp ≤ b.timestamp))

instance : IsTotal Event histLE :=
  ⟨fun a b => le_total a.timestamp b.timestamp⟩

instance : IsTrans Event histLE :=
  ⟨fun _ _ _ h1 h2 => le_trans h1 h2⟩

/-- `get_ticket_history`: `[]` for a missing ticket, otherwise the history
stably sorted by timestamp (Python's `sorted` is a stable sort; insertion
sort with a total preorder realizes the same function). -/
def get_ticket_history (db : DB) (tid : Nat) : List Event :=
  match getTicket db tid with
  | none => []
  | some t => List.insertionSort histLE t.history

/-! ## Workflow builders (`workflow_state.py`, builder section) -/

/-- One entry of the `TICKET_GROUPS` department registry
(`get_groups()`). -/
structure Group where
  id : String
  name : String

/-- ASCII lower-casing of one character, as Python `str.lower()` acts on
the ASCII department names the builders use. -/
def lowerChar (c : Char) : Char :=
  if c.toNat ≥ 65 ∧ c.toNat ≤ 90 then Char.ofNat (c.toNat + 32) else c

/-- Python `s.lower()` on the group names. -/
def lowerString (s : String) : String :=
  ⟨s.data.map lowerChar⟩

/-- The lookup `{g["name"].lower(): g for g in get_groups()}.get(key)`:
on case-insensitive name collisions the later registry entry wins. -/
def groupByLowerName (gs : List Group) (key : String) : Option Group :=
  (gs.filter (fun g => lowerString g.name == key)).getLast?

/-- The `add_group` closure of the builders: silently skip names missing
from the registry, otherwise add a required, open entry under the group
id. -/
def addGroupEntry (registry : List Group) (wf : DeptMap) (name : String) :
    DeptMap :=
  match groupByLowerName registry (lowerString name) with
  | none => wf
  | some g => dictSet wf g.id ⟨g.name, true, DEPARTMENT_STATUS_OPEN⟩

/-- `build_workflow_zugang_beantragen`: IT and Personalabteilung always,
Fuhrpark when `description.get("fuhrpark", {}).get("car") == "Ja"`. -/
def build_workflow_zugang_beantragen (registry : List Group)
    (description : JValue) : DeptMap :=
  let wf := addGroupEntry registry (addGroupEntry registry [] "IT")
    "Personalabteilung"
  if jIsStr (jget (jget description "fuhrpark") "car") "Ja" then
    addGroupEntry registry wf "Fuhrpark"
  else wf

/-! ## Reconciliation sync (`services/ninja_sync.py`) -/

/-- The part of the external ticket payload that
`poll_ninja_changes` inspects: `ninja_ticket.get("status", {}).get("statusId")`. -/
structure NinjaTicket where
  statusId : Option Int
deriving DecidableEq

/-- Failure of one step against the external system. -/
inductive SyncError where
  | network
  | malformedPayload
deriving DecidableEq, Repr

/-- The external helpdesk client (`ninja_api`, an excluded collaborator):
each call can raise on network failure or a malformed payload. -/
structure NinjaEnv where
  fetchTicket : Nat → Except SyncError NinjaTicket
  requestComment : NinjaTicket → Except SyncError String
  isApproved : Nat → Except SyncError Bool
  trackingInfo : NinjaTicket → Except SyncError String

/-- The local ticket columns touched by the sync loop. -/
structure SyncTicket where
  id : Nat
  ninja_ticket_id : Nat
  comment : String
  sendeverfolgung : String
  status : String
deriving DecidableEq

/-- Local ticket store as seen by the sync loop. -/
structure SyncSt where
  tickets : List SyncTicket
deriving DecidableEq

/-- Row update on the sync-side store. -/
def updSync (st : SyncSt) (tid : Nat) (f : SyncTicket → SyncTicket) :
    SyncSt :=
  ⟨st.tickets.map (fun t => if t.id = tid then f t else t)⟩

/-- The body of the `for t in tickets:` loop of `poll_ninja_changes`: fetch
the external ticket; on `statusId == 5000` store the comment, resolve
approval, store the tracking info, and set the local status to `approved`
or `rejected`.  An `.error` models an uncaught exception; writes made
before the failing step persist. -/
def process_pending_ticket (env : NinjaEnv) (st : SyncSt) (t : SyncTicket) :
    Option SyncError × SyncSt :=
  match env.fetchTicket t.ninja_ticket_id with
  | .error e => (some e, st)
  | .ok nt =>
    if nt.statusId = some 5000 then
      match env.requestComment nt with
      | .error e => (some e, st)
      | .ok c =>
        let st1 := updSync st t.id (fun x => { x with comment := c })
        match env.isApproved t.ninja_ticket_id with
        | .error e => (some e, st1)
        | .ok approved =>
          match env.trackingInfo nt with
          | .error e => (some e, st1)
          | .ok sv =>
            let st2 := updSync st1 t.id (fun x => { x with sendeverfolgung := sv })
            if approved then
              (none, updSync st2 t.id (fun x => { x with status := "approved" }))
            else
              (none, updSync st2 t.id (fun x => { x with status := "rejected" }))
    else (none, st)

/-- `poll_ninja_changes` over the pending list
(`database.list_pending_tickets()` is taken as input): the loop body has no
exception handler, so the first per-ticket failure propagates and the rest
of the list is not visited on that tick. -/
def poll_ninja_changes (env : NinjaEnv) (pending : List SyncTicket)
    (st : SyncSt) : Option SyncError × SyncSt :=
  match pending with
  | [] => (none, st)
  | t :: ts =>
    match process_pending_ticket env st t with
    | (some e, st') => (some e, st')
    | (none, st') => poll_ninja_changes env ts st'

/-! ## Concrete fixtures for closed evaluations -/

/-- A small group-membership table: `u1` sits in the IT department. -/
def demoMembers : String → List String :=
  fun g => if g = "g-it" then ["u1"] else []

/-- A one-ticket database: ticket 1 is `in_request` with IT still `open`
and HR already `done`; the permission settings row is an empty dict. -/
def demoDB : DB :=
  { tickets := [{ id := 1, ticket_type := "hardware", owner_id := "u9",
                  status := "in_request", priority := "medium",
                  workflow_state := some
                    [("g-it", ⟨"IT", true, "open"⟩),
                     ("g-hr", ⟨"HR", true, "done"⟩)],
                  history := [] }],
    nextId := 2,
    permStore := some [],
    groupMembers := demoMembers,
    groupName := fun _ => "IT",
    userCache := ["u1"],
    parseJson := fun _ => none }

/-- A well-formed creation request by user `u1`. -/
def demoCreateInput : CreateInput :=
  { ticket_type := "hardware", description := "\x7b\x7d",
    assignee_id := "u1", assignee_name := "U",
    supervisor_id := "u2", supervisor_name := "S",
    accountable_id := "u3", accountable_name := "A",
    priority := "medium", user_id := "u1", user_name := "U One" }

/-- External client where the fetch for ninja ticket 101 fails with a
network error and every other ticket resolves as closed and approved. -/
def demoNinjaEnv : NinjaEnv :=
  { fetchTicket := fun n =>
      if n = 101 then .error .network else .ok ⟨some 5000⟩,
    requestComment := fun _ => .ok "Genehmigt",
    isApproved := fun _ => .ok true,
    trackingInfo := fun _ => .ok "sv" }

/-- Pending local ticket linked to external ticket 101 (the failing one). -/
def demoSyncT1 : SyncTicket := ⟨1, 101, "", "", "pending"⟩

/-- Pending local ticket linked to external ticket 102 (resolvable). -/
def demoSyncT2 : SyncTicket := ⟨2, 102, "", "", "pending"⟩

/-- Local store holding the two pending tickets. -/
def demoSyncSt : SyncSt := ⟨[demoSyncT1, demoSyncT2]⟩

/-- Key/name/required projection of a department entry (everything except
the mutable `status`). -/
def deptSkeleton (p : String × DeptEntry) : String × String × Bool :=
  (p.1, p.2.name, p.2.required)

/-! ## Lemmas on the association-list operations -/

theorem alook_map_snd {f : DeptEntry → DeptEntry} :
    ∀ (m : DeptMap) (k : String),
      alook (m.map (fun p => (p.1, f p.2))) k = (alook m k).map f := by
  intro m k
  induction m with
  | nil => rfl
  | cons p rest ih =>
    by_cases h : p.1 = k
    · simp [alook, h]
    · simp [alook, h, ih]

theorem setEntryStatus_skeleton (m : DeptMap) (gid s : String) :
    (setEntryStatus m gid s).map deptSkeleton = m.map deptSkeleton := by
  unfold setEntryStatus
  rw [List.map_map]
  apply List.map_congr_left
  intro p _
  by_cases h : p.1 = gid
  · simp [deptSkeleton, h]
  · simp [deptSkeleton, h]

theorem revertEntry_skeleton (m : DeptMap) :
    (m.map (fun p => (p.1, revertEntry p.2))).map deptSkeleton =
      m.map deptSkeleton := by
  rw [List.map_map]
  apply List.map_congr_left
  intro p _
  unfold revertEntry
  by_cases h : p.2.status = DEPARTMENT_STATUS_DONE <;> simp [deptSkeleton, h]

theorem find?_map_upd (l : List TicketR) (tid : Nat) (f : TicketR → TicketR)
    (hid : ∀ t, (f t).id = t.id) :
    (l.map (fun t => if t.id = tid then f t else t)).find?
        (fun t => t.id == tid) =
      (l.find? (fun t => t.id == tid)).map f := by
  induction l with
  | nil => rfl
  | cons a l ih =>
    by_cases h : a.id = tid
    · have hb : (a.id == tid) = true := by simp [h]
      simp [List.find?, h, hb, hid]
    · have hb : (a.id == tid) = false := by simp [h]
      simp [List.find?, h, hb, ih]

theorem getTicket_updTicket (db : DB) (tid : Nat) (f : TicketR → TicketR)
    (hid : ∀ t, (f t).id = t.id) :
    getTicket (updTicket db tid f) tid = (getTicket db tid).map f :=
  find?_map_upd db.tickets tid f hid

theorem get_workflow_state_set (db : DB) (tid : Nat) (m : DeptMap) (t : TicketR)
    (h : getTicket db tid = some t) :
    get_workflow_state (set_workflow_state db tid m) tid = some m := by
  unfold get_workflow_state set_workflow_state
  rw [getTicket_updTicket db tid
    (fun t => { t with workflow_state := some m }) (fun _ => rfl), h]
  rfl

theorem get_workflow_state_add_history (db : DB) (tid : Nat) (ev : Event) :
    get_workflow_state (add_history_event db tid ev) tid =
      get_workflow_state db tid := by
  unfold add_history_event
  cases hg : getTicket db tid with
  | none => rfl
  | some t =>
    show get_workflow_state
      (updTicket db tid (fun t => { t with history := t.history ++ [ev] })) tid = _
    unfold get_workflow_state
    rw [getTicket_updTicket db tid
      (fun t => { t with history := t.history ++ [ev] }) (fun _ => rfl), hg]
    rfl

theorem guard_implies_entry (db : DB) (tid : Nat) (uid gid : String)
    (h : user_can_complete_department db tid uid gid = true) :
    ∃ m e, get_workflow_state db tid = some m ∧ alook m gid = some e ∧
      (e.status = DEPARTMENT_STATUS_OPEN ∨
        e.status = DEPARTMENT_STATUS_IN_PROGRESS) := by
  unfold user_can_complete_department at h
  split at h
  · cases h
  · split at h
    · rename_i s heq
      unfold get_department_status at heq
      rw [Option.map_eq_some'] at heq
      obtain ⟨e, he, hes⟩ := heq
      rw [Option.bind_eq_some] at he
      obtain ⟨m, hm, hme⟩ := he
      refine ⟨m, e, hm, hme, ?_⟩
      subst hes
      rcases Bool.or_eq_true_iff.mp h with h1 | h1
      · exact Or.inl (by simpa using h1)
      · exact Or.inr (by simpa using h1)
    · cases h

theorem ext_status_allowed {s : String} (h : s ∈ EXTERNAL_STATUSES) :
    s ∈ ALLOWED_DEPARTMENT_STATUS := by
  fin_cases h <;> decide

theorem filter_orderedInsert (a : Event) (l : List Event) (ts : String) :
    (List.orderedInsert histLE a l).filter
        (fun e => decide (e.timestamp = ts)) =
      if a.timestamp = ts then
        a :: l.filter (fun e => decide (e.timestamp = ts))
      else l.filter (fun e => decide (e.timestamp = ts)) := by
  induction l with
  | nil =>
    by_cases h : a.timestamp = ts <;> simp [List.orderedInsert, h]
  | cons b l ih =>
    by_cases hab : histLE a b
    · have hins : List.orderedInsert histLE a (b :: l) = a :: b :: l := by
        simp [List.orderedInsert, hab]
      rw [hins]
      by_cases ha : a.timestamp = ts <;>
        by_cases hb : b.timestamp = ts <;>
          simp [List.filter_cons, ha, hb]
    · have hins : List.orderedInsert histLE a (b :: l) =
          b :: List.orderedInsert histLE a l := by
        simp [List.orderedInsert, hab]
      rw [hins, List.filter_cons]
      by_cases hb : b.timestamp = ts
      · by_cases ha : a.timestamp = ts
        · exact absurd (show histLE a b by
            unfold histLE; rw [ha, hb]) hab
        · simp [hb, ha, ih, List.filter_cons]
      · by_cases ha : a.timestamp = ts <;>
          simp [hb, ha, ih, List.filter_cons]

theorem filter_insertionSort (l : List Event) (ts : String) :
    (List.insertionSort histLE l).filter
        (fun e => decide (e.timestamp = ts)) =
      l.filter (fun e => decide (e.timestamp = ts)) := by
  induction l with
  | nil => rfl
  | cons a l ih =>
    show (List.orderedInsert histLE a (List.insertionSort histLE l)).filter _ = _
    rw [filter_orderedInsert]
    by_cases h : a.timestamp = ts <;> simp [h, ih, List.filter_cons]

theorem alook_map_replace_ne {α : Type} (m : List (String × α))
    (k k' : String) (v : α) (h : k' ≠ k) :
    alook (m.map (fun p => if p.1 = k then (k, v) else p)) k' = alook m k' := by
  induction m with
  | nil => rfl
  | cons p rest ih =>
    rw [List.map_cons]
    by_cases hp : p.1 = k
    · rw [if_pos hp]
      show (if k = k' then some v else alook _ k') =
        (if p.1 = k' then some p.2 else alook rest k')
      rw [if_neg (Ne.symm h), if_neg (fun hh => h (hh.symm.trans hp)), ih]
    · rw [if_neg hp]
      show (if p.1 = k' then some p.2 else alook _ k') =
        (if p.1 = k' then some p.2 else alook rest k')
      by_cases hk : p.1 = k' <;> simp [hk, ih]

theorem alook_append_single_ne {α : Type} (m : List (String × α))
    (k k' : String) (v : α) (h : k' ≠ k) :
    alook (m ++ [(k, v)]) k' = alook m k' := by
  induction m with
  | nil => simp [alook, Ne.symm h]
  | cons p rest ih =>
    by_cases hk : p.1 = k' <;> simp [alook, hk, ih]

theorem alook_dictSet_ne {α : Type} (m : List (String × α))
    (k k' : String) (v : α) (h : k' ≠ k) :
    alook (dictSet m k v) k' = alook m k' := by
  unfold dictSet
  by_cases hm : hasKey m k <;>
    simp [hm, alook_map_replace_ne m k k' v h,
      alook_append_single_ne m k k' v h]

/-! ## Theorems -/

/-- C1: for a ticket whose workflow is initialized, `can_archive_ticket`
returns true iff every entry with `required = true` has `status = "done"`;
inserting an entry with `required = false`, whatever its status, never
changes the result. -/
theorem can_archive_iff_required_done :
    (∀ m : DeptMap, can_archive_ticket_doc (some m) = .ok true ↔
      ∀ p ∈ m, p.2.required = true → p.2.status = DEPARTMENT_STATUS_DONE) ∧
    (∀ (pre post : DeptMap) (k : String) (e : DeptEntry),
      e.required = false →
      can_archive_ticket_doc (some (pre ++ (k, e) :: post)) =
        can_archive_ticket_doc (some (pre ++ post))) := by
  constructor
  · intro m
    simp only [can_archive_ticket_doc, can_archive_doc, Except.ok.injEq,
      List.all_eq_true, Bool.or_eq_true, Bool.not_eq_eq_eq_not, Bool.not_true,
      decide_eq_true_eq]
    constructor
    · intro h p hp hreq
      rcases h p hp with h1 | h2
      · rw [hreq] at h1; cases h1
      · exact h2
    · intro h p hp
      by_cases hreq : p.2.required = true
      · exact Or.inr (h p hp hreq)
      · exact Or.inl (by simp at hreq; simp [hreq])
  · intro pre post k e hnr
    simp [can_archive_ticket_doc, can_archive_doc, List.all_append, hnr]

/-- Witness for C1 at a concrete department map. -/
theorem can_archive_iff_required_done_witness :
    can_archive_ticket_doc
        (some ([("g-it", ⟨"IT", true, "done"⟩)] ++
          ("g-x", ⟨"X", false, "rejected"⟩) :: [])) =
      can_archive_ticket_doc (some ([("g-it", ⟨"IT", true, "done"⟩)] ++ [])) ∧
    (can_archive_ticket_doc (some [("g-it", ⟨"IT", true, "done"⟩)]) = .ok true ↔
      ∀ p ∈ [(("g-it" : String), (⟨"IT", true, "done"⟩ : DeptEntry))],
        p.2.required = true → p.2.status = DEPARTMENT_STATUS_DONE) :=
  ⟨can_archive_iff_required_done.2 [("g-it", ⟨"IT", true, "done"⟩)] []
      "g-x" ⟨"X", false, "rejected"⟩ rfl,
    can_archive_iff_required_done.1 [("g-it", ⟨"IT", true, "done"⟩)]⟩

/-- C5: `reset_departments_on_description_change` performs no write when no
entry is `"done"`, writes the reverted map when some entry is `"done"`, and
the written map has every `"done"` entry set to `"open"` and every other
entry unchanged (per key, `revertEntry`). -/
theorem reset_departments_reverts_done :
    (∀ m : DeptMap, (∀ p ∈ m, p.2.status ≠ DEPARTMENT_STATUS_DONE) →
      reset_departments_doc (some m) = none) ∧
    (∀ m : DeptMap, (∃ p ∈ m, p.2.status = DEPARTMENT_STATUS_DONE) →
      reset_departments_doc (some m) =
        some (m.map (fun p => (p.1, revertEntry p.2)))) ∧
    (∀ m m' : DeptMap, reset_departments_doc (some m) = some m' →
      ∀ (k : String) (e : DeptEntry), alook m k = some e →
        alook m' k = some (revertEntry e)) := by
  refine ⟨?_, ?_, ?_⟩
  · intro m h
    simp only [reset_departments_doc, ite_eq_right_iff]
    intro hany
    rw [List.any_eq_true] at hany
    obtain ⟨p, hp, hdone⟩ := hany
    exact absurd (of_decide_eq_true hdone) (h p hp)
  · intro m h
    obtain ⟨p, hp, hdone⟩ := h
    have hany : m.any (fun p => decide (p.2.status = DEPARTMENT_STATUS_DONE)) :=
      List.any_eq_true.mpr ⟨p, hp, decide_eq_true hdone⟩
    simp [reset_departments_doc, hany]
  · intro m m' h k e he
    simp only [reset_departments_doc] at h
    by_cases hany :
        m.any (fun p => decide (p.2.status = DEPARTMENT_STATUS_DONE)) = true
    · rw [if_pos hany] at h
      cases h
      rw [alook_map_snd, he]
      rfl
    · rw [if_neg hany] at h
      cases h

/-- Witness for C5: a map with IT `"done"` and HR `"open"` is reset to both
`"open"`; a map with nothing `"done"` triggers no write. -/
theorem reset_departments_reverts_done_witness :
    reset_departments_doc
        (some [("g-it", ⟨"IT", true, "done"⟩), ("g-hr", ⟨"HR", true, "open"⟩)]) =
      some ([("g-it", ⟨"IT", true, "done"⟩),
             ("g-hr", ⟨"HR", true, "open"⟩)].map
        (fun p => (p.1, revertEntry p.2))) ∧
    reset_departments_doc (some [("g-hr", ⟨"HR", true, "open"⟩)]) = none :=
  ⟨reset_departments_reverts_done.2.1 _
      ⟨("g-it", ⟨"IT", true, "done"⟩), by simp, rfl⟩,
    reset_departments_reverts_done.1 _ (by decide)⟩

/-- C8: `set_department_status` and `reset_departments_on_description_change`
preserve the department keys and each entry's `name` and `required` flag;
only `status` fields change. -/
theorem workflow_ops_preserve_skeleton :
    (∀ (wfm m' : DeptMap) (gid s : String),
      set_department_status_doc (some wfm) gid s = .ok m' →
      m'.map deptSkeleton = wfm.map deptSkeleton) ∧
    (∀ m m' : DeptMap, reset_departments_doc (some m) = some m' →
      m'.map deptSkeleton = m.map deptSkeleton) := by
  constructor
  · intro wfm m' gid s h
    simp only [set_department_status_doc] at h
    by_cases hs : s ∈ ALLOWED_DEPARTMENT_STATUS
    · rw [if_neg (by simpa using hs)] at h
      by_cases hk : hasKey wfm gid = true
      · rw [if_pos hk] at h
        cases h
        exact setEntryStatus_skeleton wfm gid s
      · rw [if_neg hk] at h
        cases h
    · rw [if_pos (by simpa using hs)] at h
      cases h
  · intro m m' h
    simp only [reset_departments_doc] at h
    by_cases hany :
        m.any (fun p => decide (p.2.status = DEPARTMENT_STATUS_DONE)) = true
    · rw [if_pos hany] at h
      cases h
      exact revertEntry_skeleton m
    · rw [if_neg hany] at h
      cases h

/-- Witness for C8 at a concrete map and status write. -/
theorem workflow_ops_preserve_skeleton_witness :
    ([("g-it", (⟨"IT", true, "done"⟩ : DeptEntry))].map deptSkeleton =
      [("g-it", (⟨"IT", true, "open"⟩ : DeptEntry))].map deptSkeleton) ∧
    ([("g-it", (⟨"IT", true, "open"⟩ : DeptEntry))].map deptSkeleton =
      [("g-it", (⟨"IT", true, "done"⟩ : DeptEntry))].map deptSkeleton) :=
  ⟨workflow_ops_preserve_skeleton.1
      [("g-it", ⟨"IT", true, "open"⟩)] [("g-it", ⟨"IT", true, "done"⟩)]
      "g-it" "done" rfl,
    workflow_ops_preserve_skeleton.2
      [("g-it", ⟨"IT", true, "done"⟩)] [("g-it", ⟨"IT", true, "open"⟩)] rfl⟩

/-- Claim C2: `set_department_status` fails with `WorkflowNotInitialized`
when the ticket has no initialized workflow, with `UnknownDepartment` when
the department id is not a key of the department map, and with an
invalid-status error for any status outside the engine's vocabulary (this
check precedes the workflow check); through the department action API, the
accepted statuses are exactly `done`, `rejected` and `skipped` — any other
status is rejected with a 400 error and nothing is written. -/
theorem set_department_status_error_contract :
    (∀ (db : DB) (tid : Nat) (gid s : String),
      s ∈ ALLOWED_DEPARTMENT_STATUS →
      get_workflow_state db tid = none →
      set_department_status db tid gid s = .error .workflowNotInitialized) ∧
    (∀ (db : DB) (tid : Nat) (gid s : String) (m : DeptMap),
      s ∈ ALLOWED_DEPARTMENT_STATUS →
      get_workflow_state db tid = some m →
      alook m gid = none →
      set_department_status db tid gid s = .error .unknownDepartment) ∧
    (∀ (wf : Option DeptMap) (gid s : String),
      s ∉ ALLOWED_DEPARTMENT_STATUS →
      set_department_status_doc wf gid s = .error .invalidStatus) ∧
    (∀ (db : DB) (tid : Nat) (gid s uid uname now : String),
      user_can_complete_department db tid uid gid = true →
      s ∉ EXTERNAL_STATUSES →
      set_department_status_api db tid gid s uid uname now =
        (.error .invalidStatus, db)) ∧
    (∀ (db : DB) (tid : Nat) (gid s uid uname now : String),
      user_can_complete_department db tid uid gid = true →
      s ∈ EXTERNAL_STATUSES →
      (set_department_status_api db tid gid s uid uname now).1 = .ok ()) := by
  refine ⟨?_, ?_, ?_, ?_, ?_⟩
  · intro db tid gid s hs hwf
    unfold set_department_status set_department_status_doc
    rw [hwf, if_neg (not_not_intro hs)]
  · intro db tid gid s m hs hwf halk
    have hkey : hasKey m gid = false := by simp [hasKey, halk]
    unfold set_department_status set_department_status_doc
    rw [hwf, if_neg (not_not_intro hs)]
    simp [hkey]
  · intro wf gid s hs
    unfold set_department_status_doc
    rw [if_pos hs]
  · intro db tid gid s uid uname now hguard hs
    unfold set_department_status_api
    rw [if_neg (not_not_intro hguard), if_pos hs]
  · intro db tid gid s uid uname now hguard hs
    obtain ⟨m, e, hm, hme, _⟩ := guard_implies_entry db tid uid gid hguard
    obtain ⟨t0, ht0⟩ : ∃ t0, getTicket db tid = some t0 := by
      unfold get_workflow_state at hm
      cases hg : getTicket db tid with
      | none => rw [hg] at hm; cases hm
      | some t => exact ⟨t, rfl⟩
    have hkey : hasKey m gid = true := by simp [hasKey, hme]
    have hdoc : set_department_status_doc (some m) gid s =
        .ok (setEntryStatus m gid s) := by
      unfold set_department_status_doc
      rw [if_neg (not_not_intro (ext_status_allowed hs))]
      simp [hkey]
    have hset : set_department_status db tid gid s =
        .ok (set_workflow_state db tid (setEntryStatus m gid s)) := by
      unfold set_department_status
      rw [hm, hdoc]
    have harch : ∀ ev : Event,
        can_archive_ticket
          (add_history_event
            (set_workflow_state db tid (setEntryStatus m gid s)) tid ev)
          tid = .ok (can_archive_doc (setEntryStatus m gid s)) := by
      intro ev
      unfold can_archive_ticket
      rw [get_workflow_state_add_history,
        get_workflow_state_set db tid _ t0 ht0]
      rfl
    unfold set_department_status_api
    rw [if_neg (not_not_intro hguard), if_neg (not_not_intro hs), hset]
    simp only []
    rw [harch]
    cases can_archive_doc (setEntryStatus m gid s) <;> rfl

/-- Witness for C2: on the demo database, member `u1` of open department
IT marks it `done` through the API and the call succeeds. -/
theorem set_department_status_error_contract_witness :
    (set_department_status_api demoDB 1 "g-it" "done" "u1" "U One" "t0").1 =
      .ok () :=
  set_department_status_error_contract.2.2.2.2 demoDB 1 "g-it" "done" "u1"
    "U One" "t0" (by decide) (by decide)

/-- Claim C10: `user_can_complete_department` returns true only when the
entry's current status is `open` or `in_progress`; consequently a
department entry already `done`, `skipped` or `rejected` can never be
written again through the department action API — the call is refused
with `Forbidden` and the state is unchanged, for every ticket, department
and acting user. -/
theorem terminal_department_status_frozen :
    (∀ (db : DB) (tid : Nat) (uid gid : String),
      user_can_complete_department db tid uid gid = true →
      get_department_status db tid gid = some DEPARTMENT_STATUS_OPEN ∨
      get_department_status db tid gid = some DEPARTMENT_STATUS_IN_PROGRESS) ∧
    (∀ (db : DB) (tid : Nat) (gid s uid uname now st : String),
      get_department_status db tid gid = some st →
      st ∈ [DEPARTMENT_STATUS_DONE, DEPARTMENT_STATUS_SKIPPED,
            DEPARTMENT_STATUS_REJECTED] →
      set_department_status_api db tid gid s uid uname now =
        (.error .forbidden, db)) := by
  constructor
  · intro db tid uid gid h
    obtain ⟨m, e, hm, hme, hst⟩ := guard_implies_entry db tid uid gid h
    have hds : get_department_status db tid gid = some e.status := by
      unfold get_department_status
      rw [hm]
      simp [hme]
    rcases hst with h1 | h1
    · exact Or.inl (by rw [hds, h1])
    · exact Or.inr (by rw [hds, h1])
  · intro db tid gid s uid uname now st hst hmem
    have hguard : user_can_complete_department db tid uid gid = false := by
      unfold user_can_complete_department
      by_cases hmem2 : (db.groupMembers gid).contains uid = true
      · rw [if_neg (not_not_intro hmem2), hst]
        show (st == DEPARTMENT_STATUS_OPEN ||
          st == DEPARTMENT_STATUS_IN_PROGRESS) = false
        fin_cases hmem <;> decide
      · rw [if_pos hmem2]
    unfold set_department_status_api
    rw [if_pos (by simp [hguard])]

/-- Witness for C10: HR is already `done` on the demo database, so a
further write by any user is refused with `Forbidden`. -/
theorem terminal_department_status_frozen_witness :
    set_department_status_api demoDB 1 "g-hr" "skipped" "u1" "U One" "t0" =
      (.error .forbidden, demoDB) :=
  terminal_department_status_frozen.2 demoDB 1 "g-hr" "skipped" "u1" "U One"
    "t0" "done" (by decide) (by decide)

/-- Claim C3: a creation attempt by a user who is not in the
`TICKET_PERMISSIONS` entry for the requested ticket type fails the
permission gate and the handler returns `Forbidden` with the database
untouched: no ticket row is inserted and no history event is appended. -/
theorem create_ticket_forbidden_no_write :
    ∀ (db : DB) (inp : CreateInput) (now : String),
      inp.user_id ∉ permEntry db.permStore inp.ticket_type →
      can_user_create_ticket db.permStore inp.ticket_type inp.user_id
          = false ∧
      create_ticket db inp now = (.error .forbidden, db) := by
  intro db inp now hmem
  have hcan : can_user_create_ticket db.permStore inp.ticket_type inp.user_id
      = false := by
    unfold can_user_create_ticket
    by_cases h0 : inp.ticket_type = "" ∨ inp.user_id = ""
    · rw [if_pos h0]
    · rw [if_neg h0]
      split
      · rename_i us halk
        have hnm : inp.user_id ∉ us := by
          intro hin

          apply hmem
          unfold permEntry
          rw [halk]
          exact hin
        cases hc : us.contains inp.user_id
        · rfl
        · exact absurd (by simpa using hc) hnm
      · rfl
  refine ⟨hcan, ?_⟩
  unfold create_ticket
  rw [if_pos (by simp [hcan])]

/-- Witness for C3: user `u1` is not in the (empty) permission entry for
`hardware` on the demo database, so the creation request is refused and
the database is returned unchanged. -/
theorem create_ticket_forbidden_no_write_witness :
    create_ticket demoDB demoCreateInput "t0" = (.error .forbidden, demoDB) :=
  (create_ticket_forbidden_no_write demoDB demoCreateInput "t0"
    (by decide)).2

/-- Claim C7: `get_ticket_history` returns the ticket's stored events
sorted by non-decreasing timestamp, and for every timestamp the events
carrying it appear exactly as in the stored (append-ordered) list, i.e.
ties preserve insertion order; the result is a permutation of the stored
history. -/
theorem get_ticket_history_sorted_stable :
    ∀ (db : DB) (tid : Nat),
      (get_ticket_history db tid).Sorted histLE ∧
      (∀ ts : String,
        (get_ticket_history db tid).filter
            (fun e => decide (e.timestamp = ts)) =
          (rawHistory db tid).filter (fun e => decide (e.timestamp = ts))) ∧
      (get_ticket_history db tid).Perm (rawHistory db tid) := by
  intro db tid
  unfold get_ticket_history rawHistory
  cases getTicket db tid with
  | none => exact ⟨List.sorted_nil, fun _ => rfl, List.Perm.refl []⟩
  | some t =>
    exact ⟨List.sorted_insertionSort histLE t.history,
      fun ts => filter_insertionSort t.history ts,
      List.perm_insertionSort histLE t.history⟩

/-- Counterexample to C9 as stated: a payload with an unknown ticket type
and a non-list value returns normally (`.ok`, a successful full write of
the initialized store) instead of failing with `InvalidTicketType` or
`InvalidPayload`; both offending entries are silently ignored. -/
theorem set_ticket_permissions_safe_counterexample :
    set_ticket_permissions_safe
        [("bogus-type", .plist ["u1"]), ("hardware", .nonList)] (some []) =
      .ok (some
        [("hardware", .plist []), ("niederlassung-anmelden", .plist []),
         ("niederlassung-schliessen", .plist []),
         ("niederlassung-umzug", .plist []),
         ("zugang-beantragen", .plist []),
         ("zugang-sperren", .plist [])]) := by
  rfl

/-- Claim C9 (amended): `set_ticket_permissions_safe` never raises — it
always returns `.ok`; payload entries with an unknown ticket type or a
non-list value are silently skipped; a known ticket type with a list value
has its user set fully replaced, and `dictSet` leaves the entry of every
other ticket type unchanged. -/
theorem set_ticket_permissions_behavior :
    (∀ (payload : PermsRaw) (store : Option PermsRaw), ∃ p,
      set_ticket_permissions_safe payload store = .ok (some p)) ∧
    (∀ (store : Option PermsRaw) (tt : String) (us : List String),
      tt ∈ get_allowed_ticket_types →
      set_ticket_permissions_safe [(tt, .plist us)] store =
        .ok (some (dictSet (init_ticket_permissions store) tt (.plist us)))) ∧
    (∀ (store : Option PermsRaw) (tt : String) (v : PermVal),
      tt ∉ get_allowed_ticket_types →
      set_ticket_permissions_safe [(tt, v)] store =
        .ok (some (init_ticket_permissions store))) ∧
    (∀ (store : Option PermsRaw) (tt : String),
      set_ticket_permissions_safe [(tt, .nonList)] store =
        .ok (some (init_ticket_permissions store))) ∧
    (∀ (m : PermsRaw) (k k' : String) (v : PermVal), k' ≠ k →
      alook (dictSet m k v) k' = alook m k') := by
  refine ⟨?_, ?_, ?_, ?_, ?_⟩
  · intro payload store
    exact ⟨_, rfl⟩
  · intro store tt us htt
    unfold set_ticket_permissions_safe
    simp only [List.foldl_cons, List.foldl_nil]
    rw [if_neg (not_not_intro htt)]
  · intro store tt v htt
    unfold set_ticket_permissions_safe
    simp only [List.foldl_cons, List.foldl_nil]
    rw [if_pos htt]
  · intro store tt
    unfold set_ticket_permissions_safe
    simp only [List.foldl_cons, List.foldl_nil]
    by_cases htt : tt ∈ get_allowed_ticket_types
    · rw [if_neg (not_not_intro htt)]
    · rw [if_pos htt]
  · intro m k k' v h
    exact alook_dictSet_ne m k k' v h

/-- Witness for C9 (amended): replacing the `hardware` user set on an
absent settings row initializes every type and stores the new list. -/
theorem set_ticket_permissions_behavior_witness :
    set_ticket_permissions_safe [("hardware", .plist ["u7"])] none =
      .ok (some (dictSet (init_ticket_permissions none) "hardware"
        (.plist ["u7"]))) :=
  set_ticket_permissions_behavior.2.1 none "hardware" ["u7"] (by decide)

/-- Claim C6: building the `zugang-beantragen` workflow for description
`{"fuhrpark": {"car": "Ja"}}` against a registry holding IT,
Personalabteilung and Fuhrpark yields exactly those three departments,
each required and `open`. -/
theorem build_workflow_scenario_access_grant :
    build_workflow_zugang_beantragen
        [⟨"g-it", "IT"⟩, ⟨"g-hr", "Personalabteilung"⟩,
         ⟨"g-fleet", "Fuhrpark"⟩]
        (.obj [("fuhrpark", .obj [("car", .str "Ja")])]) =
      [("g-it", ⟨"IT", true, "open"⟩),
       ("g-hr", ⟨"Personalabteilung", true, "open"⟩),
       ("g-fleet", ⟨"Fuhrpark", true, "open"⟩)] := by
  rfl

/-- Claim C4 fails on the code: with two pending tickets whose first
external fetch raises a network error, `poll_ninja_changes` lets the
exception escape the loop — the tick ends with the store unchanged and
ticket 2 unprocessed, although processing `[demoSyncT2]` alone on the same
store does update ticket 2 to `approved`.  (The spec requires the loop to
log and continue with the remaining tickets.) -/
theorem poll_aborts_batch_on_first_failure :
    poll_ninja_changes demoNinjaEnv [demoSyncT1, demoSyncT2] demoSyncSt =
      (some .network, demoSyncSt) ∧
    (poll_ninja_changes demoNinjaEnv [demoSyncT2] demoSyncSt).2 =
      ⟨[⟨1, 101, "", "", "pending"⟩,
        ⟨2, 102, "Genehmigt", "sv", "approved"⟩]⟩ := by
  exact ⟨rfl, rfl⟩

end AlphaRequest
